import Mathlib

/-!
Verification of the LLM-Router core (rate limiter, model registry,
preferences store, analytics log, router orchestration) against its
natural-language specification.  The TypeScript sources are shallowly
embedded: each class's mutable state becomes an explicit state value
threaded through the operations, `Date.now()` becomes an explicit `now`
parameter, JavaScript numbers that only ever hold integers become `Nat`,
and the floating-point running average becomes exact `ℚ` arithmetic.
Remote LLM calls are modelled by explicit oracle parameters.
-/

namespace LLMRouter

/-! ## Rate limiter (src/utils/rateLimiter.ts)

The `RateLimiter` class keeps a `Map<string, RateLimitEntry>` that only
ever uses the single key `'global'`, so the state is modelled as
`Option RateLimitEntry`. -/

structure RateLimitEntry where
  count : Nat
  resetTime : Nat
deriving DecidableEq, Repr

/-- `MAX_REQUESTS_PER_MINUTE` -/
def maxRequestsPerMinute : Nat := 20

/-- `RATE_LIMIT_WINDOW_MS` (60 * 1000) -/
def rateLimitWindowMs : Nat := 60 * 1000

/-- `RateLimiter.canMakeRequest`: returns the boolean result together with
the state of the `'global'` entry after the call. -/
def canMakeRequest (now : Nat) (s : Option RateLimitEntry) :
    Bool × Option RateLimitEntry :=
  match s with
  | none => (true, some { count := 1, resetTime := now + rateLimitWindowMs })
  | some entry =>
    if now > entry.resetTime then
      (true, some { count := 1, resetTime := now + rateLimitWindowMs })
    else if entry.count ≥ maxRequestsPerMinute then
      (false, some entry)
    else
      (true, some { entry with count := entry.count + 1 })

/-- `RateLimiter.getTimeUntilReset` (read-only). -/
def getTimeUntilReset (now : Nat) (s : Option RateLimitEntry) : Nat :=
  match s with
  | none => 0
  | some entry => if now > entry.resetTime then 0 else entry.resetTime - now

/-- `RateLimiter.getCurrentCount` (read-only). -/
def getCurrentCount (now : Nat) (s : Option RateLimitEntry) : Nat :=
  match s with
  | none => 0
  | some entry => if now > entry.resetTime then 0 else entry.count

structure RateLimitStatus where
  currentCount : Nat
  maxRequests : Nat
  timeUntilReset : Nat
  isLimited : Bool
deriving DecidableEq, Repr

/-- `RateLimiter.getStatus`: the object literal evaluates `currentCount`
and `timeUntilReset` against the pre-call state; the `isLimited` field is
computed last by invoking `canMakeRequest()`, whose mutation is the
returned post-state. -/
def getStatus (now : Nat) (s : Option RateLimitEntry) :
    RateLimitStatus × Option RateLimitEntry :=
  let probe := canMakeRequest now s
  ({ currentCount := getCurrentCount now s
     maxRequests := maxRequestsPerMinute
     timeUntilReset := getTimeUntilReset now s
     isLimited := !probe.1 }, probe.2)

/-- Runs `canMakeRequest` `n` times at a fixed instant `now`, conjoining
all the returned booleans and threading the state. -/
def runChecks (n : Nat) (now : Nat) (s : Option RateLimitEntry) :
    Bool × Option RateLimitEntry :=
  match n with
  | 0 => (true, s)
  | k + 1 =>
    let r := canMakeRequest now s
    let rest := runChecks k now r.2
    (r.1 && rest.1, rest.2)

lemma canMakeRequest_fresh (now : Nat) :
    canMakeRequest now none =
      (true, some { count := 1, resetTime := now + rateLimitWindowMs }) := rfl

lemma canMakeRequest_expired (now : Nat) (e : RateLimitEntry)
    (h : now > e.resetTime) :
    canMakeRequest now (some e) =
      (true, some { count := 1, resetTime := now + rateLimitWindowMs }) := by
  simp [canMakeRequest, h]

lemma canMakeRequest_increments (now : Nat) (e : RateLimitEntry)
    (h1 : ¬ now > e.resetTime) (h2 : e.count < maxRequestsPerMinute) :
    canMakeRequest now (some e) =
      (true, some { e with count := e.count + 1 }) := by
  simp [canMakeRequest, h1, Nat.not_le_of_lt h2]

lemma canMakeRequest_denied (now : Nat) (e : RateLimitEntry)
    (h1 : ¬ now > e.resetTime) (h2 : e.count ≥ maxRequestsPerMinute) :
    canMakeRequest now (some e) = (false, some e) := by
  simp [canMakeRequest, h1, h2]

/-- Inside an unexpired window, `k` further checks from count `c` all
succeed and leave the count at `c + k`, provided `c + k ≤ 20`. -/
lemma runChecks_within_window (now : Nat) :
    ∀ (k c r : Nat), now ≤ r → c + k ≤ maxRequestsPerMinute → 1 ≤ c →
    runChecks k now (some { count := c, resetTime := r }) =
      (true, some { count := c + k, resetTime := r }) := by
  intro k
  induction k with
  | zero => intro c r _ _ _; rfl
  | succ k ih =>
    intro c r hr hck hc
    have hnot : ¬ now > r := Nat.not_lt.mpr hr
    have hlt : c < maxRequestsPerMinute := by omega
    have hstep := canMakeRequest_increments now { count := c, resetTime := r } hnot hlt
    have hrest := ih (c + 1) r hr (by omega) (by omega)
    simp only [runChecks, hstep, hrest, Bool.and_self]
    have hc' : c + 1 + k = c + (k + 1) := by omega
    rw [hc']

/-- Any successful admission into a fresh window is followed by 19 more
successful admissions, saturating the window at count 20. -/
lemma runChecks_after_fresh (now : Nat) (s : Option RateLimitEntry)
    (h : canMakeRequest now s =
      (true, some { count := 1, resetTime := now + rateLimitWindowMs })) :
    runChecks maxRequestsPerMinute now s =
      (true, some { count := maxRequestsPerMinute,
                    resetTime := now + rateLimitWindowMs }) := by
  have h19 := runChecks_within_window now 19 1 (now + rateLimitWindowMs)
    (Nat.le_add_right _ _) (by norm_num [maxRequestsPerMinute]) (le_refl 1)
  have h20 : runChecks maxRequestsPerMinute now s =
      ((canMakeRequest now s).1 &&
        (runChecks 19 now (canMakeRequest now s).2).1,
       (runChecks 19 now (canMakeRequest now s).2).2) := rfl
  rw [h20, h]
  simp [h19, maxRequestsPerMinute]

/-- C2: `canMakeRequest` starts a new window (count 1, reset `now + 60000`)
and admits when no window exists or the window is expired; inside an
unexpired window it admits and increments while the count is below 20 and
denies without mutating state once the count reaches 20.  Consequently 20
admissions from an empty state all succeed, any further check inside the
same window is denied, and after the window duration has elapsed past the
window start another 20 admissions succeed. -/
theorem canMakeRequest_contract (now : Nat) (s : Option RateLimitEntry) :
    ((s = none →
        canMakeRequest now s =
          (true, some { count := 1, resetTime := now + rateLimitWindowMs })) ∧
     (∀ e, s = some e → now > e.resetTime →
        canMakeRequest now s =
          (true, some { count := 1, resetTime := now + rateLimitWindowMs })) ∧
     (∀ e, s = some e → ¬ now > e.resetTime → e.count < maxRequestsPerMinute →
        canMakeRequest now s =
          (true, some { count := e.count + 1, resetTime := e.resetTime })) ∧
     (∀ e, s = some e → ¬ now > e.resetTime → e.count ≥ maxRequestsPerMinute →
        canMakeRequest now s = (false, s))) ∧
    (runChecks maxRequestsPerMinute now none =
       (true, some { count := maxRequestsPerMinute,
                     resetTime := now + rateLimitWindowMs }) ∧
     (∀ t, t ≤ now + rateLimitWindowMs →
        (canMakeRequest t (some { count := maxRequestsPerMinute,
                                  resetTime := now + rateLimitWindowMs })).1 =
          false) ∧
     (∀ t, t > now + rateLimitWindowMs →
        runChecks maxRequestsPerMinute t
            (some { count := maxRequestsPerMinute,
                    resetTime := now + rateLimitWindowMs }) =
          (true, some { count := maxRequestsPerMinute,
                        resetTime := t + rateLimitWindowMs }))) := by
  refine ⟨⟨?_, ?_, ?_, ?_⟩, ?_, ?_, ?_⟩
  · intro h; subst h; exact canMakeRequest_fresh now
  · intro e h hexp; subst h; exact canMakeRequest_expired now e hexp
  · intro e h hun hlt; subst h; exact canMakeRequest_increments now e hun hlt
  · intro e h hun hge; subst h; exact canMakeRequest_denied now e hun hge
  · exact runChecks_after_fresh now none (canMakeRequest_fresh now)
  · intro t ht
    have := canMakeRequest_denied t
      { count := maxRequestsPerMinute, resetTime := now + rateLimitWindowMs }
      (Nat.not_lt.mpr ht) (le_refl _)
    simp [this]
  · intro t ht
    exact runChecks_after_fresh t _ (canMakeRequest_expired t _ ht)

/-- Concrete instantiation of the rate-limiter contract: a saturated
unexpired window denies, the empty state admits 20 times ending at
count 20 with reset time 60000, the 21st check at any time up to the
reset boundary is denied, and a fresh run of 20 checks succeeds after
the boundary. -/
theorem canMakeRequest_contract_witness :
    canMakeRequest 5 (some { count := 20, resetTime := 100 }) =
        (false, some { count := 20, resetTime := 100 }) ∧
    runChecks 20 0 none = (true, some { count := 20, resetTime := 60000 }) ∧
    (canMakeRequest 60000 (some { count := 20, resetTime := 60000 })).1 =
        false ∧
    runChecks 20 60001 (some { count := 20, resetTime := 60000 }) =
        (true, some { count := 20, resetTime := 120001 }) := by
  refine ⟨?_, ?_, ?_, ?_⟩
  · exact (canMakeRequest_contract 5 (some { count := 20, resetTime := 100 })).1.2.2.2
      { count := 20, resetTime := 100 } rfl (by decide) (by decide)
  · exact (canMakeRequest_contract 0 none).2.1
  · exact (canMakeRequest_contract 0 none).2.2.1 60000 (by decide)
  · exact (canMakeRequest_contract 0 none).2.2.2 60001 (by decide)

/-- C9: `getStatus` reports `currentCount` and `timeUntilReset` against the
pre-call state, but computes `isLimited` through a side-effecting
`canMakeRequest` probe: when no window exists, the window is expired, or
the count is below the maximum, the probe consumes a request slot
(creating the window or incrementing the count) and `isLimited` is false;
only a full unexpired window leaves the state unchanged with `isLimited`
true. -/
theorem getStatus_probe (now : Nat) (s : Option RateLimitEntry) :
    ((getStatus now s).1.currentCount = getCurrentCount now s ∧
     (getStatus now s).1.maxRequests = maxRequestsPerMinute ∧
     (getStatus now s).1.timeUntilReset = getTimeUntilReset now s) ∧
    ((s = none ∨ ∃ e, s = some e ∧ now > e.resetTime) →
       (getStatus now s).1.isLimited = false ∧
       (getStatus now s).2 =
         some { count := 1, resetTime := now + rateLimitWindowMs }) ∧
    (∀ e, s = some e → ¬ now > e.resetTime → e.count < maxRequestsPerMinute →
       (getStatus now s).1.isLimited = false ∧
       (getStatus now s).2 =
         some { count := e.count + 1, resetTime := e.resetTime } ∧
       (getStatus now s).1.currentCount = e.count) ∧
    (∀ e, s = some e → ¬ now > e.resetTime → e.count ≥ maxRequestsPerMinute →
       (getStatus now s).1.isLimited = true ∧
       (getStatus now s).2 = s ∧
       (getStatus now s).1.currentCount = e.count) := by
  refine ⟨⟨rfl, rfl, rfl⟩, ?_, ?_, ?_⟩
  · rintro (h | ⟨e, h, hexp⟩)
    · subst h; simp [getStatus, canMakeRequest_fresh]
    · subst h; simp [getStatus, canMakeRequest_expired now e hexp]
  · intro e h hun hlt
    subst h
    refine ⟨?_, ?_, ?_⟩
    · simp [getStatus, canMakeRequest_increments now e hun hlt]
    · simp [getStatus, canMakeRequest_increments now e hun hlt]
    · simp [getStatus, getCurrentCount, hun]
  · intro e h hun hge
    subst h
    refine ⟨?_, ?_, ?_⟩
    · simp [getStatus, canMakeRequest_denied now e hun hge]
    · simp [getStatus, canMakeRequest_denied now e hun hge]
    · simp [getStatus, getCurrentCount, hun]

/-- Concrete instantiation of the status-probe contract: probing an
unexpired window with count 3 consumes a slot (count becomes 4) while
reporting currentCount 3 and isLimited false; probing a full window
leaves it unchanged and reports isLimited true. -/
theorem getStatus_probe_witness :
    ((getStatus 10 (some { count := 3, resetTime := 50 })).1.isLimited =
        false ∧
     (getStatus 10 (some { count := 3, resetTime := 50 })).2 =
        some { count := 4, resetTime := 50 } ∧
     (getStatus 10 (some { count := 3, resetTime := 50 })).1.currentCount =
        3) ∧
    ((getStatus 10 (some { count := 20, resetTime := 50 })).1.isLimited =
        true ∧
     (getStatus 10 (some { count := 20, resetTime := 50 })).2 =
        some { count := 20, resetTime := 50 } ∧
     (getStatus 10 (some { count := 20, resetTime := 50 })).1.currentCount =
        20) := by
  constructor
  · exact (getStatus_probe 10 (some { count := 3, resetTime := 50 })).2.2.1
      { count := 3, resetTime := 50 } rfl (by decide) (by decide)
  · exact (getStatus_probe 10 (some { count := 20, resetTime := 50 })).2.2.2
      { count := 20, resetTime := 50 } rfl (by decide) (by decide)

/-! ## Model registry (src/config/models.ts)

The `speed` and `category` fields are TypeScript string-literal unions;
they are embedded as plain strings carrying exactly the literals used in
the source. -/

structure ModelConfig where
  id : String
  name : String
  provider : String
  contextWindow : Nat
  strengths : List String
  useCases : List String
  speed : String
  category : String
deriving DecidableEq, Repr

/-- The static `AVAILABLE_MODELS` catalog, in declaration order. -/
def AVAILABLE_MODELS : List ModelConfig :=
  [{ id := "mistralai/mistral-small-24b-instruct-2501:free"
     name := "Mistral Small 3"
     provider := "Mistral"
     contextWindow := 32768
     strengths := ["fast_response", "decision_making", "analysis"]
     useCases := ["routing_decisions", "quick_analysis"]
     speed := "fast"
     category := "general" },
   { id := "google/gemini-2.5-pro-exp-03-25"
     name := "Gemini 2.5 Pro Experimental"
     provider := "Google"
     contextWindow := 1048576
     strengths := ["large_context", "reasoning", "multimodal"]
     useCases := ["long_documents", "complex_analysis", "research"]
     speed := "medium"
     category := "analysis" },
   { id := "qwen/qwen3-235b-a22b:free"
     name := "Qwen3 235B A22B"
     provider := "Qwen"
     contextWindow := 131072
     strengths := ["large_context", "reasoning", "multilingual"]
     useCases := ["long_conversations", "complex_reasoning"]
     speed := "slow"
     category := "reasoning" },
   { id := "deepseek/deepseek-r1:free"
     name := "DeepSeek R1"
     provider := "DeepSeek"
     contextWindow := 163840
     strengths := ["reasoning", "mathematics", "analysis"]
     useCases := ["problem_solving", "mathematical_tasks", "analysis"]
     speed := "medium"
     category := "reasoning" },
   { id := "qwen/qwen3-coder:free"
     name := "Qwen3 Coder 480B A35B"
     provider := "Qwen"
     contextWindow := 262144
     strengths := ["coding", "debugging", "code_generation"]
     useCases := ["programming", "code_review", "technical_writing"]
     speed := "medium"
     category := "coding" },
   { id := "agentica-org/deepcoder-14b-preview:free"
     name := "DeepCoder 14B Preview"
     provider := "Agentica"
     contextWindow := 96000
     strengths := ["coding", "code_understanding", "refactoring"]
     useCases := ["code_analysis", "programming_help"]
     speed := "fast"
     category := "coding" },
   { id := "qwen/qwen-2.5-coder-32b-instruct:free"
     name := "Qwen2.5 Coder 32B"
     provider := "Qwen"
     contextWindow := 32768
     strengths := ["coding", "debugging", "code_explanation"]
     useCases := ["programming", "code_help"]
     speed := "fast"
     category := "coding" },
   { id := "mistralai/mistral-small-3.2-24b-instruct:free"
     name := "Mistral Small 3.2 24B"
     provider := "Mistral"
     contextWindow := 131072
     strengths := ["balanced", "conversational", "general_knowledge"]
     useCases := ["general_chat", "writing", "explanation"]
     speed := "fast"
     category := "general" },
   { id := "meta-llama/llama-3.3-70b-instruct:free"
     name := "Llama 3.3 70B"
     provider := "Meta"
     contextWindow := 65536
     strengths := ["conversational", "creative_writing", "analysis"]
     useCases := ["writing", "creative_tasks", "general_assistance"]
     speed := "medium"
     category := "creative" },
   { id := "deepseek/deepseek-chat-v3-0324:free"
     name := "DeepSeek V3 0324"
     provider := "DeepSeek"
     contextWindow := 163840
     strengths := ["conversational", "analysis", "multilingual"]
     useCases := ["general_chat", "analysis", "translation"]
     speed := "fast"
     category := "general" },
   { id := "google/gemma-3n-e2b-it:free"
     name := "Gemma 3n 2B"
     provider := "Google"
     contextWindow := 8192
     strengths := ["fast_response", "lightweight"]
     useCases := ["quick_responses", "simple_queries"]
     speed := "fast"
     category := "general" },
   { id := "mistralai/mistral-7b-instruct:free"
     name := "Mistral 7B"
     provider := "Mistral"
     contextWindow := 32768
     strengths := ["fast", "efficient", "general_purpose"]
     useCases := ["quick_tasks", "general_questions"]
     speed := "fast"
     category := "general" }]

/-- `getModelsByContextRequirement` -/
def getModelsByContextRequirement (minContext : Nat) : List ModelConfig :=
  AVAILABLE_MODELS.filter (fun model => minContext ≤ model.contextWindow)

/-- `getFastestModels` -/
def getFastestModels : List ModelConfig :=
  AVAILABLE_MODELS.filter (fun model => model.speed == "fast")

/-! ## Context estimation (src/utils/router.ts, lines 68-70)

`message.length / 4` is a real division fed to `Math.ceil`; over `Nat`
the ceiling of `L / 4` is `(L + 3) / 4`. -/

/-- `CONTEXT_MULTIPLIER_THRESHOLD` -/
def contextMultiplierThreshold : Nat := 1000

/-- `MAX_CONTEXT_FALLBACK` -/
def maxContextFallback : Nat := 100000

/-- `const estimatedTokens = Math.ceil(message.length / 4)` for a message
of length `L`. -/
def estimatedTokens (L : Nat) : Nat := (L + 3) / 4

/-- `const contextMultiplier = estimatedTokens > 1000 ? 2 : 1` -/
def contextMultiplier (L : Nat) : Nat :=
  if estimatedTokens L > contextMultiplierThreshold then 2 else 1

/-- `const minContextNeeded = Math.min(estimatedTokens * contextMultiplier,
100000)` -/
def minContextNeeded (L : Nat) : Nat :=
  min (estimatedTokens L * contextMultiplier L) maxContextFallback

/-- The spec's formula for the context requirement, stated over `ℤ` with a
genuine rational ceiling: `min(ceil(L/4) * (2 if ceil(L/4) > 1000 else 1),
100000)`. -/
def specContextRequirement (L : Nat) : ℤ :=
  min (⌈(L : ℚ) / 4⌉ * (if 1000 < ⌈(L : ℚ) / 4⌉ then 2 else 1)) 100000

/-- The integer ceiling of `L / 4` is computed by `(L + 3) / 4` in `Nat`
arithmetic. -/
lemma ceil_div_four (L : Nat) : ⌈(L : ℚ) / 4⌉ = ((L + 3) / 4 : Nat) := by
  obtain ⟨k, hk⟩ : ∃ k, (L + 3) / 4 = k := ⟨_, rfl⟩
  have h1 : L ≤ 4 * k := by omega
  have h2 : 4 * k < L + 4 := by omega
  rw [hk, Int.ceil_eq_iff]
  constructor
  · rw [lt_div_iff₀ (by norm_num : (0:ℚ) < 4)]
    have hq : (4 : ℚ) * (k : ℚ) < (L : ℚ) + 4 := by exact_mod_cast h2
    push_cast
    linarith
  · rw [div_le_iff₀ (by norm_num : (0:ℚ) < 4)]
    have hq : (L : ℚ) ≤ 4 * (k : ℚ) := by exact_mod_cast h1
    push_cast
    linarith

/-- The context-based candidate computation of `analyzeAndRoute` (router.ts
lines 73-78): models that can handle the estimated context, falling back
to the top 5 models by descending context window when none qualify.  (The
source's fallback sorts `AVAILABLE_MODELS` in place with `Array.sort`;
here the sort is modelled purely.) -/
def contextCandidates (L : Nat) : List ModelConfig :=
  let available := getModelsByContextRequirement (minContextNeeded L)
  if available.isEmpty then
    (AVAILABLE_MODELS.mergeSort
      (fun a b => b.contextWindow ≤ a.contextWindow)).take 5
  else
    available

/-- C1: the minimum context requirement used by `analyzeAndRoute` to
pre-filter models equals the spec's formula
`min(ceil(L/4) * (2 if ceil(L/4) > 1000 else 1), 100000)`. -/
theorem minContextNeeded_matches_spec (L : Nat) :
    (minContextNeeded L : ℤ) = specContextRequirement L := by
  unfold minContextNeeded specContextRequirement
    contextMultiplier contextMultiplierThreshold maxContextFallback
  rw [ceil_div_four L]
  simp only [estimatedTokens]
  obtain ⟨k, hk⟩ : ∃ k, (L + 3) / 4 = k := ⟨_, rfl⟩
  simp only [hk]
  by_cases h : 1000 < k
  · have h' : (1000 : ℤ) < (k : ℤ) := by exact_mod_cast h
    simp only [gt_iff_lt, h, h', if_true]
    push_cast [Nat.cast_min]
    rfl
  · have h' : ¬ (1000 : ℤ) < (k : ℤ) := by exact_mod_cast h
    simp only [gt_iff_lt, h, h', if_false]
    push_cast [Nat.cast_min]
    rfl

/-- For every requirement at most 100000 the registry query is non-empty
(the 1,048,576-token Gemini entry always qualifies). -/
lemma getModelsByContextRequirement_ne_nil (n : Nat) (hn : n ≤ 100000) :
    getModelsByContextRequirement n ≠ [] := by
  have hex : ∃ m ∈ AVAILABLE_MODELS, 131072 ≤ m.contextWindow := by decide
  obtain ⟨m, hm, hcw⟩ := hex
  have hmem : m ∈ getModelsByContextRequirement n := by
    refine List.mem_filter.mpr ⟨hm, ?_⟩
    simp only [decide_eq_true_eq]
    omega
  exact List.ne_nil_of_mem hmem

/-- C10: the clamped context requirement never exceeds 100,000 while the
registry holds models with at least 131,072 tokens of context, so the
context query is never empty and the fallback branch that would sort
`AVAILABLE_MODELS` in place is unreachable: the candidate computation
always returns the plain registry filter, and the registry keeps its
declaration order. -/
theorem registrySortFallback_unreachable (L : Nat) :
    minContextNeeded L ≤ 100000 ∧
    (∃ m ∈ AVAILABLE_MODELS, 131072 ≤ m.contextWindow) ∧
    getModelsByContextRequirement (minContextNeeded L) ≠ [] ∧
    contextCandidates L = getModelsByContextRequirement (minContextNeeded L) := by
  have hle : minContextNeeded L ≤ 100000 := Nat.min_le_right _ _
  have hne := getModelsByContextRequirement_ne_nil (minContextNeeded L) hle
  refine ⟨hle, by decide, hne, ?_⟩
  unfold contextCandidates
  simp [List.isEmpty_iff, hne]

/-! ## Routing preferences (src/config/routingPreferences.ts and
src/utils/preferencesManager.ts)

The `priority` field is a TypeScript string union, embedded as a plain
string; the in-memory `Map<string, RoutingPreferences>` becomes an
insertion-ordered association list. -/

structure RoutingPreferences where
  priority : String
  maxLatency : Option ℚ
  minQuality : Option ℚ
  allowedCategories : Option (List String)
  excludedModels : Option (List String)
deriving DecidableEq, Repr

/-- `DEFAULT_ROUTING_PREFERENCES` -/
def DEFAULT_ROUTING_PREFERENCES : RoutingPreferences :=
  { priority := "balanced"
    maxLatency := some 5000
    minQuality := some (7/10)
    allowedCategories := some []
    excludedModels := some [] }

/-- `PRIORITY_WEIGHTS`: a record with `latency`, `quality` and `balanced`
keys (in declaration order), each carrying latency/quality weights. -/
def PRIORITY_WEIGHTS : List (String × (ℚ × ℚ)) :=
  [("latency", (8/10, 2/10)),
   ("quality", (2/10, 8/10)),
   ("balanced", (5/10, 5/10))]

/-- `Object.keys(PRIORITY_WEIGHTS)` -/
def priorityWeightKeys : List String := PRIORITY_WEIGHTS.map Prod.fst

/-- A `Partial<RoutingPreferences>` value: each field may be present or
absent. -/
structure PartialRoutingPreferences where
  priority : Option String := none
  maxLatency : Option ℚ := none
  minQuality : Option ℚ := none
  allowedCategories : Option (List String) := none
  excludedModels : Option (List String) := none
deriving DecidableEq, Repr

/-- The spread merge `{ ...currentPrefs, ...preferences }`. -/
def mergePreferences (cur : RoutingPreferences)
    (p : PartialRoutingPreferences) : RoutingPreferences :=
  { priority := p.priority.getD cur.priority
    maxLatency := (p.maxLatency.map some).getD cur.maxLatency
    minQuality := (p.minQuality.map some).getD cur.minQuality
    allowedCategories := (p.allowedCategories.map some).getD cur.allowedCategories
    excludedModels := (p.excludedModels.map some).getD cur.excludedModels }

/-- The in-memory `userPreferences` map. -/
abbrev PrefStore : Type := List (String × RoutingPreferences)

/-- `PreferencesManager.getUserPreferences` -/
def getUserPreferences (store : PrefStore) (userId : String) :
    RoutingPreferences :=
  ((store : List (String × RoutingPreferences)).lookup userId).getD
    DEFAULT_ROUTING_PREFERENCES

/-- `Map.set`: overwrite the existing binding in place or append a new
one, preserving insertion order. -/
def storeSet (store : PrefStore) (userId : String)
    (prefs : RoutingPreferences) : PrefStore :=
  if (store : List (String × RoutingPreferences)).any
      (fun kv => kv.1 == userId) then
    (store : List (String × RoutingPreferences)).map
      (fun kv => if kv.1 == userId then (userId, prefs) else kv)
  else
    (store : List (String × RoutingPreferences)) ++ [(userId, prefs)]

/-- The message thrown by `validatePreferences` for an unrecognised
priority. -/
def invalidPriorityMsg (priority : String) : String :=
  "Invalid priority: " ++ priority ++ ". Must be one of: " ++
    String.intercalate ", " priorityWeightKeys

/-- `PreferencesManager.validatePreferences` -/
def validatePreferences (prefs : RoutingPreferences) : Except String Unit :=
  if priorityWeightKeys.contains prefs.priority then
    Except.ok ()
  else
    Except.error (invalidPriorityMsg prefs.priority)

/-- `PreferencesManager.setUserPreferences`: on a validation failure the
exception propagates and the store is untouched. -/
def setUserPreferences (store : PrefStore) (userId : String)
    (preferences : PartialRoutingPreferences) :
    Except String RoutingPreferences × PrefStore :=
  let currentPrefs := getUserPreferences store userId
  let updatedPrefs := mergePreferences currentPrefs preferences
  match validatePreferences updatedPrefs with
  | Except.error e => (Except.error e, store)
  | Except.ok _ => (Except.ok updatedPrefs, storeSet store userId updatedPrefs)

/-- The merged record built from the `"auto"` partial update used as the
counterexample input. -/
def autoPartial : PartialRoutingPreferences := { priority := some "auto" }

/-- C4 counterexample: the claim admits `"auto"` as a recognized priority,
but `validatePreferences` checks membership in
`Object.keys(PRIORITY_WEIGHTS) = [latency, quality, balanced]`, so
setting `priority = "auto"` fails with a ValidationError instead of
succeeding. -/
theorem setUserPreferences_auto_rejected :
    (mergePreferences (getUserPreferences [] "default") autoPartial).priority
        = "auto" ∧
    (setUserPreferences [] "default" autoPartial).1 =
      Except.error
        "Invalid priority: auto. Must be one of: latency, quality, balanced" ∧
    (setUserPreferences [] "default" autoPartial).2 = [] := by
  refine ⟨rfl, ?_, rfl⟩
  rfl

/-- C4 (amended): `setUserPreferences` succeeds exactly when the merged
record's priority is one of the `PRIORITY_WEIGHTS` keys
`{latency, quality, balanced}` (in particular `"auto"` and `"cost"` are
rejected); on failure it raises a ValidationError and leaves the stored
preferences unchanged. -/
theorem setUserPreferences_validation (store : PrefStore) (userId : String)
    (p : PartialRoutingPreferences) :
    ((mergePreferences (getUserPreferences store userId) p).priority ∈
        priorityWeightKeys →
      setUserPreferences store userId p =
        (Except.ok (mergePreferences (getUserPreferences store userId) p),
         storeSet store userId
           (mergePreferences (getUserPreferences store userId) p))) ∧
    ((mergePreferences (getUserPreferences store userId) p).priority ∉
        priorityWeightKeys →
      (setUserPreferences store userId p).1 =
        Except.error (invalidPriorityMsg
          (mergePreferences (getUserPreferences store userId) p).priority) ∧
      (setUserPreferences store userId p).2 = store) := by
  constructor
  · intro h
    simp [setUserPreferences, validatePreferences, h]
  · intro h
    simp [setUserPreferences, validatePreferences, h]

/-- Concrete instantiation of the validation contract: setting priority
`"quality"` succeeds and persists; setting priority `"cost"` fails with a
ValidationError and leaves the store unchanged. -/
theorem setUserPreferences_validation_witness :
    setUserPreferences [] "u" { priority := some "quality" } =
      (Except.ok (mergePreferences (getUserPreferences [] "u")
          { priority := some "quality" }),
       storeSet [] "u" (mergePreferences (getUserPreferences [] "u")
          { priority := some "quality" })) ∧
    (setUserPreferences [] "u" { priority := some "cost" }).1 =
      Except.error (invalidPriorityMsg "cost") ∧
    (setUserPreferences [] "u" { priority := some "cost" }).2 = [] := by
  refine ⟨?_, ?_⟩
  · exact (setUserPreferences_validation [] "u"
      { priority := some "quality" }).1 (by decide)
  · exact (setUserPreferences_validation [] "u"
      { priority := some "cost" }).2 (by decide)

/-! ## Preference filtering (src/utils/router.ts, applyUserPreferences) -/

/-- `applyUserPreferences`: filter by the allow-list of categories and the
exclude-list of model ids, reverting to the original list when the result
is empty. -/
def applyUserPreferences (models : List ModelConfig)
    (preferences : RoutingPreferences) : List ModelConfig :=
  let f1 : List ModelConfig :=
    match preferences.allowedCategories with
    | some cats =>
      if cats.length > 0 then
        models.filter (fun model => cats.contains model.category)
      else models
    | none => models
  let f2 : List ModelConfig :=
    match preferences.excludedModels with
    | some excluded =>
      if excluded.length > 0 then
        f1.filter (fun model => !(excluded.contains model.id))
      else f1
    | none => f1
  if f2.length > 0 then f2 else models

/-- The combined keep-predicate of the two filters: category in the
allow-list and id not in the exclude-list. -/
def keptByPreferences (cats excluded : List String) (m : ModelConfig) :
    Bool :=
  cats.contains m.category && !(excluded.contains m.id)

/-- C5: with a non-`auto` priority and a non-empty allow-list,
`applyUserPreferences` returns the order-preserving sublist of models
whose category is allowed and whose id is not excluded, unless that
sublist is empty, in which case the original list is returned; hence the
result is never empty when the input is not. -/
theorem applyUserPreferences_spec (models : List ModelConfig)
    (preferences : RoutingPreferences) (cats : List String)
    (hne : models ≠ [])
    (_hauto : preferences.priority ≠ "auto")
    (hcats : preferences.allowedCategories = some cats)
    (hcne : cats ≠ []) :
    (applyUserPreferences models preferences =
      if (models.filter
            (keptByPreferences cats (preferences.excludedModels.getD []))).isEmpty
      then models
      else models.filter
            (keptByPreferences cats (preferences.excludedModels.getD []))) ∧
    applyUserPreferences models preferences ≠ [] := by
  have hclen : cats.length > 0 := List.length_pos.mpr hcne
  have hf2 :
      (match preferences.excludedModels with
        | some excluded =>
          if excluded.length > 0 then
            (models.filter (fun model => cats.contains model.category)).filter
              (fun model => !(excluded.contains model.id))
          else models.filter (fun model => cats.contains model.category)
        | none => models.filter (fun model => cats.contains model.category)) =
      models.filter
        (keptByPreferences cats (preferences.excludedModels.getD [])) := by
    cases hex : preferences.excludedModels with
    | none =>
      simp only [Option.getD]
      apply List.filter_congr
      intro m _
      simp [keptByPreferences]
    | some excluded =>
      by_cases hlen : excluded.length > 0
      · simp only [hlen, if_true, Option.getD, List.filter_filter]
        apply List.filter_congr
        intro m _
        simp [keptByPreferences, Bool.and_comm]
      · have : excluded = [] := List.length_eq_zero.mp (by omega)
        subst this
        simp only [hlen, if_false, Option.getD]
        apply List.filter_congr
        intro m _
        simp [keptByPreferences]
  have hmain : applyUserPreferences models preferences =
      if (models.filter
            (keptByPreferences cats (preferences.excludedModels.getD []))).isEmpty
      then models
      else models.filter
            (keptByPreferences cats (preferences.excludedModels.getD [])) := by
    unfold applyUserPreferences
    rw [hcats]
    simp only [hclen, if_true]
    rw [hf2]
    by_cases hend :
        (models.filter
          (keptByPreferences cats (preferences.excludedModels.getD []))) = []
    · simp [hend]
    · have hpos : 0 < (models.filter
          (keptByPreferences cats (preferences.excludedModels.getD []))).length :=
        List.length_pos.mpr hend
      simp [hpos, List.isEmpty_iff, hend]
  refine ⟨hmain, ?_⟩
  rw [hmain]
  by_cases hend :
      (models.filter
        (keptByPreferences cats (preferences.excludedModels.getD []))) = []
  · simpa [hend, List.isEmpty_iff] using hne
  · simp [List.isEmpty_iff, hend]

/-- Concrete instantiation of the preference-filtering contract: with
allow-list `["coding"]` and an exclude-list naming one coding model, the
result keeps exactly the other coding models; with allow-list
`["nonexistent"]` the empty filter result is discarded and the full input
is returned. -/
theorem applyUserPreferences_spec_witness :
    (applyUserPreferences AVAILABLE_MODELS
        { priority := "quality", maxLatency := none, minQuality := none,
          allowedCategories := some ["coding"],
          excludedModels := some ["qwen/qwen3-coder:free"] } =
      AVAILABLE_MODELS.filter
        (keptByPreferences ["coding"] ["qwen/qwen3-coder:free"]) ∧
     applyUserPreferences AVAILABLE_MODELS
        { priority := "quality", maxLatency := none, minQuality := none,
          allowedCategories := some ["coding"],
          excludedModels := some ["qwen/qwen3-coder:free"] } ≠ []) ∧
    (applyUserPreferences AVAILABLE_MODELS
        { priority := "quality", maxLatency := none, minQuality := none,
          allowedCategories := some ["nonexistent"],
          excludedModels := some [] } = AVAILABLE_MODELS) := by
  have h1 := applyUserPreferences_spec AVAILABLE_MODELS
    { priority := "quality", maxLatency := none, minQuality := none,
      allowedCategories := some ["coding"],
      excludedModels := some ["qwen/qwen3-coder:free"] }
    ["coding"] (by decide) (by decide) rfl (by decide)
  have h2 := applyUserPreferences_spec AVAILABLE_MODELS
    { priority := "quality", maxLatency := none, minQuality := none,
      allowedCategories := some ["nonexistent"],
      excludedModels := some [] }
    ["nonexistent"] (by decide) (by decide) rfl (by decide)
  refine ⟨⟨?_, h1.2⟩, ?_⟩
  · rw [h1.1]
    decide
  · rw [h2.1]
    decide

/-! ## Analytics (src/utils/analytics.ts)

The `AnalyticsTracker` state becomes an explicit record; the JS objects
used as counters become insertion-ordered association lists; the
floating-point running average becomes exact `ℚ` arithmetic.  The
randomly generated entry id and `Date.now()` timestamp are supplied by
the caller as part of the log input. -/

structure RoutingDecisionLog where
  id : String
  timestamp : Nat
  userMessage : String
  selectedModel : String
  modelCategory : String
  reasoning : String
  confidence : ℚ
  processingTime : ℚ
  tokensUsed : Nat
  estimatedCost : ℚ
  priority : String
deriving DecidableEq, Repr

structure RoutingAnalytics where
  totalRequests : Nat
  modelUsage : List (String × Nat)
  categoryUsage : List (String × Nat)
  averageProcessingTime : ℚ
  totalTokensUsed : Nat
  routingDecisions : List RoutingDecisionLog
deriving DecidableEq, Repr

/-- The freshly constructed analytics state (also produced by
`resetAnalytics`). -/
def initialAnalytics : RoutingAnalytics :=
  { totalRequests := 0
    modelUsage := []
    categoryUsage := []
    averageProcessingTime := 0
    totalTokensUsed := 0
    routingDecisions := [] }

/-- `MAX_DECISIONS_LOGGED` -/
def maxDecisionsLogged : Nat := 1000

/-- `obj[k] = (obj[k] || 0) + 1` on a JS object, preserving first-seen
key order. -/
def bumpCount (m : List (String × Nat)) (k : String) : List (String × Nat) :=
  if m.any (fun kv => kv.1 == k) then
    m.map (fun kv => if kv.1 == k then (kv.1, kv.2 + 1) else kv)
  else m ++ [(k, 1)]

/-- The arguments of one `logRoutingDecision` call, together with the
environment-chosen entry id and timestamp. -/
structure LogInput where
  id : String
  timestamp : Nat
  userMessage : String
  selectedModel : String
  modelCategory : String
  reasoning : String
  confidence : ℚ
  processingTime : ℚ
  tokensUsed : Nat
  estimatedCost : ℚ
  priority : String
deriving DecidableEq, Repr

/-- The `RoutingDecisionLog` record constructed by `logRoutingDecision`
(`userMessage.substring(0, 200)` becomes `String.take 200`). -/
def mkDecisionLog (i : LogInput) : RoutingDecisionLog :=
  { id := i.id
    timestamp := i.timestamp
    userMessage := i.userMessage.take 200
    selectedModel := i.selectedModel
    modelCategory := i.modelCategory
    reasoning := i.reasoning
    confidence := i.confidence
    processingTime := i.processingTime
    tokensUsed := i.tokensUsed
    estimatedCost := i.estimatedCost
    priority := i.priority }

/-- `AnalyticsTracker.logRoutingDecision` -/
def logRoutingDecision (i : LogInput) (a : RoutingAnalytics) :
    RoutingAnalytics :=
  let decision := mkDecisionLog i
  let totalRequests := a.totalRequests + 1
  let averageProcessingTime :=
    (a.averageProcessingTime * ((totalRequests : ℚ) - 1) + i.processingTime) /
      (totalRequests : ℚ)
  let decisions := decision :: a.routingDecisions
  let decisions :=
    if decisions.length > maxDecisionsLogged then
      decisions.take maxDecisionsLogged
    else decisions
  { totalRequests := totalRequests
    modelUsage := bumpCount a.modelUsage i.selectedModel
    categoryUsage := bumpCount a.categoryUsage i.modelCategory
    averageProcessingTime := averageProcessingTime
    totalTokensUsed := a.totalTokensUsed + i.tokensUsed
    routingDecisions := decisions }

/-- `Math.round` (rounds half away from zero toward positive infinity for
the non-negative values arising here). -/
def jsRound (x : ℚ) : ℤ := ⌊x + 1/2⌋

/-- The `sort(...)[0]` pick of the most-used entry: with a stable
descending sort this is the first-seen entry of maximal count. -/
def pickMostUsed (m : List (String × Nat)) : Option (String × Nat) :=
  m.foldl (fun best kv =>
    match best with
    | none => some kv
    | some b => if kv.2 > b.2 then some kv else some b) none

structure AnalyticsSummary where
  totalRequests : Nat
  mostUsedModel : Option (String × Nat)
  mostUsedCategory : Option (String × Nat)
  averageProcessingTime : ℤ
  totalTokensUsed : Nat
  recentDecisions : List RoutingDecisionLog
deriving DecidableEq, Repr

/-- `AnalyticsTracker.getAnalyticsSummary` -/
def getAnalyticsSummary (a : RoutingAnalytics) : AnalyticsSummary :=
  { totalRequests := a.totalRequests
    mostUsedModel := pickMostUsed a.modelUsage
    mostUsedCategory := pickMostUsed a.categoryUsage
    averageProcessingTime := jsRound a.averageProcessingTime
    totalTokensUsed := a.totalTokensUsed
    recentDecisions := a.routingDecisions.take 10 }

/-- A sequence of `logRoutingDecision` calls. -/
def runLog (inputs : List LogInput) (a : RoutingAnalytics) :
    RoutingAnalytics :=
  inputs.foldl (fun st i => logRoutingDecision i st) a

/-- One externally observable analytics operation. -/
inductive AnalyticsOp where
  | log (i : LogInput)
  | reset
deriving Repr

/-- `resetAnalytics` replaces the state with a fresh record. -/
def applyAnalyticsOp (op : AnalyticsOp) (a : RoutingAnalytics) :
    RoutingAnalytics :=
  match op with
  | AnalyticsOp.log i => logRoutingDecision i a
  | AnalyticsOp.reset => initialAnalytics

/-- Runs a sequence of log/reset operations from the initial state. -/
def runOps (ops : List AnalyticsOp) : RoutingAnalytics :=
  ops.foldl (fun st op => applyAnalyticsOp op st) initialAnalytics

/-- One `logRoutingDecision` call adds one request and adds the new
processing time to the (count-weighted) average. -/
lemma logRoutingDecision_stats (i : LogInput) (a : RoutingAnalytics) :
    (logRoutingDecision i a).totalRequests = a.totalRequests + 1 ∧
    (logRoutingDecision i a).averageProcessingTime *
        ((a.totalRequests + 1 : Nat) : ℚ) =
      a.averageProcessingTime * (a.totalRequests : ℚ) + i.processingTime := by
  constructor
  · rfl
  · show (a.averageProcessingTime * (((a.totalRequests + 1 : Nat) : ℚ) - 1) +
        i.processingTime) / ((a.totalRequests + 1 : Nat) : ℚ) *
        ((a.totalRequests + 1 : Nat) : ℚ) = _
    have hne : ((a.totalRequests + 1 : Nat) : ℚ) ≠ 0 := by
      push_cast
      positivity
    rw [div_mul_cancel₀ _ hne]
    push_cast
    ring

/-- Weighted-average invariant for a whole sequence of log calls. -/
lemma runLog_stats (inputs : List LogInput) :
    ∀ a : RoutingAnalytics,
    (runLog inputs a).totalRequests = a.totalRequests + inputs.length ∧
    (runLog inputs a).averageProcessingTime *
        ((a.totalRequests + inputs.length : Nat) : ℚ) =
      a.averageProcessingTime * (a.totalRequests : ℚ) +
        (inputs.map (fun i => i.processingTime)).sum := by
  induction inputs with
  | nil =>
    intro a
    simp [runLog]
  | cons i rest ih =>
    intro a
    have hstep := logRoutingDecision_stats i a
    have hrest := ih (logRoutingDecision i a)
    constructor
    · show (runLog rest (logRoutingDecision i a)).totalRequests = _
      rw [hrest.1, hstep.1]
      simp
      omega
    · show (runLog rest (logRoutingDecision i a)).averageProcessingTime * _ = _
      have hlen : a.totalRequests + (i :: rest).length =
          (logRoutingDecision i a).totalRequests + rest.length := by
        rw [hstep.1]; simp; omega
      rw [hlen, hrest.2, hstep.1, hstep.2]
      simp
      ring

/-- C7: after `N` `logRoutingDecision` calls from a fresh state,
`totalRequests` (also as reported by `getAnalyticsSummary`) equals `N`,
and the incrementally maintained `averageProcessingTime` equals the exact
arithmetic mean of all `N` recorded processing times, including times of
entries already evicted from the capped log. -/
theorem analytics_running_average (inputs : List LogInput) :
    (runLog inputs initialAnalytics).totalRequests = inputs.length ∧
    (getAnalyticsSummary (runLog inputs initialAnalytics)).totalRequests =
      inputs.length ∧
    (runLog inputs initialAnalytics).averageProcessingTime *
        ((inputs.length : Nat) : ℚ) =
      (inputs.map (fun i => i.processingTime)).sum ∧
    (inputs ≠ [] →
      (runLog inputs initialAnalytics).averageProcessingTime =
        (inputs.map (fun i => i.processingTime)).sum / (inputs.length : ℚ)) := by
  have h := runLog_stats inputs initialAnalytics
  have h1 : (runLog inputs initialAnalytics).totalRequests = inputs.length := by
    rw [h.1]; simp [initialAnalytics]
  have h2 : (runLog inputs initialAnalytics).averageProcessingTime *
      ((inputs.length : Nat) : ℚ) =
      (inputs.map (fun i => i.processingTime)).sum := by
    have := h.2
    simp only [initialAnalytics] at this
    simpa using this
  refine ⟨h1, h1, h2, ?_⟩
  intro hne
  have hlen : ((inputs.length : Nat) : ℚ) ≠ 0 := by
    have : inputs.length ≠ 0 := by
      intro h0
      exact hne (List.length_eq_zero.mp h0)
    exact_mod_cast this
  rw [eq_div_iff hlen]
  exact h2

/-- Concrete instantiation of the running-average contract: two calls with
processing times 3 and 5 leave the stored average at exactly 4. -/
theorem analytics_running_average_witness :
    (([{ id := "a", timestamp := 0, userMessage := "m1",
         selectedModel := "x", modelCategory := "general",
         reasoning := "", confidence := 1, processingTime := 3,
         tokensUsed := 0, estimatedCost := 0, priority := "balanced" },
       { id := "b", timestamp := 0, userMessage := "m2",
         selectedModel := "y", modelCategory := "general",
         reasoning := "", confidence := 1, processingTime := 5,
         tokensUsed := 0, estimatedCost := 0, priority := "balanced" }] :
        List LogInput) ≠ []) ∧
    (runLog
      [{ id := "a", timestamp := 0, userMessage := "m1",
         selectedModel := "x", modelCategory := "general",
         reasoning := "", confidence := 1, processingTime := 3,
         tokensUsed := 0, estimatedCost := 0, priority := "balanced" },
       { id := "b", timestamp := 0, userMessage := "m2",
         selectedModel := "y", modelCategory := "general",
         reasoning := "", confidence := 1, processingTime := 5,
         tokensUsed := 0, estimatedCost := 0, priority := "balanced" }]
      initialAnalytics).averageProcessingTime = 4 := by
  constructor
  · simp
  · rw [(analytics_running_average _).2.2.2 (by simp)]
    norm_num

/-- Each log call prepends the new entry and truncates to the 1000 most
recent entries. -/
lemma logRoutingDecision_decisions (i : LogInput) (a : RoutingAnalytics) :
    (logRoutingDecision i a).routingDecisions =
      (mkDecisionLog i :: a.routingDecisions).take maxDecisionsLogged := by
  show (if (mkDecisionLog i :: a.routingDecisions).length > maxDecisionsLogged
        then (mkDecisionLog i :: a.routingDecisions).take maxDecisionsLogged
        else mkDecisionLog i :: a.routingDecisions) = _
  by_cases h :
      (mkDecisionLog i :: a.routingDecisions).length > maxDecisionsLogged
  · simp [h]
  · rw [if_neg h, List.take_of_length_le (by omega)]

/-- The log-length bound is preserved by every operation. -/
lemma runOps_fold_length (ops : List AnalyticsOp) :
    ∀ a : RoutingAnalytics, a.routingDecisions.length ≤ maxDecisionsLogged →
    (ops.foldl (fun st op => applyAnalyticsOp op st) a).routingDecisions.length ≤
      maxDecisionsLogged := by
  induction ops with
  | nil => intro a ha; exact ha
  | cons op rest ih =>
    intro a ha
    refine ih _ ?_
    cases op with
    | log i =>
      show (logRoutingDecision i a).routingDecisions.length ≤ _
      rw [logRoutingDecision_decisions]
      calc ((mkDecisionLog i :: a.routingDecisions).take
              maxDecisionsLogged).length
          ≤ maxDecisionsLogged := by
            rw [List.length_take]
            omega
    | reset =>
      show (initialAnalytics).routingDecisions.length ≤ _
      simp [initialAnalytics, maxDecisionsLogged]

/-- C8: after any sequence of `logRoutingDecision` and `resetAnalytics`
operations the decision log holds at most 1000 entries; each record
prepends the new entry and truncates to the 1000 most recent (dropping
the earliest-appended first, most-recent-first for retrieval), and
`getAnalyticsSummary().recentDecisions` is the at most 10 most recent
entries. -/
theorem analytics_log_capped (ops : List AnalyticsOp) :
    (runOps ops).routingDecisions.length ≤ 1000 ∧
    (∀ (i : LogInput) (a : RoutingAnalytics),
      (logRoutingDecision i a).routingDecisions =
        (mkDecisionLog i :: a.routingDecisions).take 1000) ∧
    (∀ a : RoutingAnalytics,
      (getAnalyticsSummary a).recentDecisions = a.routingDecisions.take 10) ∧
    (getAnalyticsSummary (runOps ops)).recentDecisions.length ≤ 10 := by
  have hcap := runOps_fold_length ops initialAnalytics
    (by simp [initialAnalytics, maxDecisionsLogged])
  refine ⟨hcap, logRoutingDecision_decisions, fun a => rfl, ?_⟩
  show ((runOps ops).routingDecisions.take 10).length ≤ 10
  rw [List.length_take]
  omega

/-! ## Router orchestration (src/utils/router.ts)

`analyzeAndRoute`, `callSelectedModel` and `routeAndRespond` perform
remote LLM calls; these are modelled by oracle parameters (the outcome of
the single delegated selection call, and the outcome of the generation
call per model).  All calls of one request share the explicit instant
`now`. -/

instance : Inhabited ModelConfig :=
  ⟨{ id := "", name := "", provider := "", contextWindow := 0,
     strengths := [], useCases := [], speed := "", category := "" }⟩

structure RouterDecision where
  selectedModel : ModelConfig
  reasoning : String
  confidence : ℚ
  alternatives : List ModelConfig
deriving DecidableEq, Repr

/-- The outcome of the delegated router-model call as seen by
`analyzeAndRoute`: either some exception was thrown inside the `try`
block (network failure, missing content, JSON parse error), or a decision
object `{modelId, reasoning, confidence}` was parsed. -/
inductive SelectionOutcome where
  | failure
  | parsed (modelId : String) (reasoning : String) (confidence : Option ℚ)
deriving DecidableEq, Repr

def rateLimitReasoning : String :=
  "Rate limit exceeded, using fastest available model for quick response"

def noModelsReasoning : String :=
  "No models available after applying user preferences, using fastest fallback"

def unknownModelReasoning : String :=
  "Router selected unknown model, using fastest available fallback"

def analysisFailedReasoning : String :=
  "Router analysis failed, using fastest available model as fallback"

/-- `decision.confidence || 0.8`: JavaScript replaces a missing *or zero*
confidence with the 0.8 default. -/
def confidenceOrDefault (c : Option ℚ) : ℚ :=
  match c with
  | none => 4/5
  | some v => if v = 0 then 4/5 else v

/-- `analyzeAndRoute`: returns the decision, whether the delegated
selection call was issued, and the rate-limiter state after the admission
check. -/
def analyzeAndRoute (now : Nat) (rl : Option RateLimitEntry)
    (store : PrefStore) (userId : String) (message : String)
    (sel : SelectionOutcome) :
    RouterDecision × Bool × Option RateLimitEntry :=
  let check := canMakeRequest now rl
  if !check.1 then
    ({ selectedModel := getFastestModels.headI
       reasoning := rateLimitReasoning
       confidence := 1/2
       alternatives := getFastestModels.tail }, false, check.2)
  else
    let userPrefs := getUserPreferences store userId
    let availableModels := contextCandidates message.length
    let availableModels :=
      if userPrefs.priority ≠ "auto" then
        applyUserPreferences availableModels userPrefs
      else availableModels
    if availableModels.isEmpty then
      ({ selectedModel := getFastestModels.headI
         reasoning := noModelsReasoning
         confidence := 3/10
         alternatives := getFastestModels.tail }, false, check.2)
    else
      match sel with
      | SelectionOutcome.failure =>
        ({ selectedModel := getFastestModels.headI
           reasoning := analysisFailedReasoning
           confidence := 1/5
           alternatives := getFastestModels.tail }, true, check.2)
      | SelectionOutcome.parsed modelId reasoning confidence =>
        match AVAILABLE_MODELS.find? (fun m => m.id == modelId) with
        | none =>
          ({ selectedModel := getFastestModels.headI
             reasoning := unknownModelReasoning
             confidence := 3/10
             alternatives := getFastestModels.tail }, true, check.2)
        | some selectedModel =>
          ({ selectedModel := selectedModel
             reasoning := reasoning
             confidence := confidenceOrDefault confidence
             alternatives :=
               (availableModels.filter
                 (fun m => m.id != selectedModel.id)).take 3 },
           true, check.2)

structure ChatResponse where
  content : String
  model : String
  reasoning : String
  tokensUsed : Option Nat
  processingTime : Nat
deriving DecidableEq, Repr

/-- The outcome of one generation call to a chosen model. -/
inductive BackendOutcome where
  | failure (msg : String)
  | noContent
  | success (content : String) (tokensUsed : Option Nat)
deriving DecidableEq, Repr

def rateLimitErrorMsg : String := "Rate limit exceeded"

def noResponseMsg : String := "No response from selected model"

def allFailedMsg : String :=
  "All routing attempts failed. Please try again later."

/-- `callSelectedModel`: re-checks the rate limiter before issuing the
generation call; a denial throws `'Rate limit exceeded'`.  (In the
single-instant model no time passes, so `processingTime` is 0.) -/
def callSelectedModel (now : Nat) (rl : Option RateLimitEntry)
    (modelConfig : ModelConfig) (backend : BackendOutcome) :
    Except String ChatResponse × Option RateLimitEntry :=
  let check := canMakeRequest now rl
  if !check.1 then
    (Except.error rateLimitErrorMsg, check.2)
  else
    match backend with
    | BackendOutcome.failure msg => (Except.error msg, check.2)
    | BackendOutcome.noContent => (Except.error noResponseMsg, check.2)
    | BackendOutcome.success content tokensUsed =>
      (Except.ok { content := content
                   model := modelConfig.name
                   reasoning := ""
                   tokensUsed := tokensUsed
                   processingTime := 0 }, check.2)

def fallbackLogReasoning : String := "Fallback due to routing failure"

def primaryFailedReasoning : String :=
  "Primary routing failed, used fastest available model as fallback"

/-- `routeAndRespond`: analyze, dispatch, log analytics on success; on any
failure retry the dispatch once against the first fastest model and log
that; if the fallback also fails, throw the terminal error.  The entry id
is environment-generated and modelled as `""`. -/
def routeAndRespond (now : Nat) (rl : Option RateLimitEntry)
    (a : RoutingAnalytics) (store : PrefStore) (userId : String)
    (message : String) (sel : SelectionOutcome)
    (backend : ModelConfig → BackendOutcome) :
    Except String ChatResponse × Option RateLimitEntry × RoutingAnalytics :=
  let analyzed := analyzeAndRoute now rl store userId message sel
  let decision := analyzed.1
  let rl1 := analyzed.2.2
  let call1 := callSelectedModel now rl1 decision.selectedModel
    (backend decision.selectedModel)
  match call1.1 with
  | Except.ok response =>
    let userPrefs := getUserPreferences store userId
    let a1 := logRoutingDecision
      { id := ""
        timestamp := now
        userMessage := message
        selectedModel := decision.selectedModel.id
        modelCategory := decision.selectedModel.category
        reasoning := decision.reasoning
        confidence := decision.confidence
        processingTime := (response.processingTime : ℚ)
        tokensUsed := response.tokensUsed.getD 0
        estimatedCost := 0
        priority := userPrefs.priority } a
    (Except.ok { response with
        reasoning := decision.reasoning
        processingTime := 0 }, call1.2, a1)
  | Except.error _ =>
    let fallbackModel := getFastestModels.headI
    let call2 := callSelectedModel now call1.2 fallbackModel
      (backend fallbackModel)
    match call2.1 with
    | Except.ok fallbackResponse =>
      let a1 := logRoutingDecision
        { id := ""
          timestamp := now
          userMessage := message
          selectedModel := fallbackModel.id
          modelCategory := fallbackModel.category
          reasoning := fallbackLogReasoning
          confidence := 1/5
          processingTime := (fallbackResponse.processingTime : ℚ)
          tokensUsed := fallbackResponse.tokensUsed.getD 0
          estimatedCost := 0
          priority := "balanced" } a
      (Except.ok { fallbackResponse with
          reasoning := primaryFailedReasoning
          processingTime := 0 }, call2.2, a1)
    | Except.error _ => (Except.error allFailedMsg, call2.2, a)

/-! ## POST /chat error mapping (src/app/api/chat/route.ts)

`error.message.includes(...)` is string containment, implemented here
over character lists. -/

/-- Whether `pat` is an initial segment of `s`. -/
def leadsWith : List Char → List Char → Bool
  | [], _ => true
  | _ :: _, [] => false
  | a :: as, b :: bs => a == b && leadsWith as bs

/-- Whether `pat` occurs contiguously inside `s`. -/
def hasSegment (pat : List Char) : List Char → Bool
  | [] => leadsWith pat []
  | c :: rest => leadsWith pat (c :: rest) || hasSegment pat rest

/-- JavaScript `s.includes(pat)`. -/
def strIncludes (s pat : String) : Bool := hasSegment pat.data s.data

/-- `RETRY_AFTER_SECONDS` -/
def retryAfterSeconds : Nat := 60

/-- The HTTP status the POST /chat handler assigns to an error thrown by
`routeAndRespond`: 429 for a message containing `'Rate limit exceeded'`,
503 for one containing `'All routing attempts failed'`, 500 otherwise. -/
def chatErrorStatus (msg : String) : Nat :=
  if strIncludes msg "Rate limit exceeded" then 429
  else if strIncludes msg "All routing attempts failed" then 503
  else 500

/-- C6: when the rate limiter denies admission at the start of a request,
`analyzeAndRoute` returns the degraded decision — first fastest registry
model, the fixed rate-limit reasoning string, confidence 0.5 — without
issuing the delegated selection call (the `false` flag), and the first
fastest-classified registry model is the Mistral Small 3 entry. -/
theorem analyzeAndRoute_rate_limited (now : Nat)
    (rl : Option RateLimitEntry) (store : PrefStore) (userId : String)
    (message : String) (sel : SelectionOutcome)
    (h : (canMakeRequest now rl).1 = false) :
    analyzeAndRoute now rl store userId message sel =
      ({ selectedModel := getFastestModels.headI
         reasoning := rateLimitReasoning
         confidence := 1/2
         alternatives := getFastestModels.tail }, false,
       (canMakeRequest now rl).2) ∧
    getFastestModels.headI.id =
      "mistralai/mistral-small-24b-instruct-2501:free" ∧
    getFastestModels.headI.speed = "fast" := by
  refine ⟨?_, by decide, by decide⟩
  simp only [analyzeAndRoute, h]
  rfl

/-- Concrete instantiation of the degraded rate-limited decision: with a
saturated unexpired window the router immediately returns the first
fastest model with confidence 0.5 and the fixed reasoning, without a
selection call and without touching the window. -/
theorem analyzeAndRoute_rate_limited_witness :
    analyzeAndRoute 0 (some { count := 20, resetTime := 60000 }) []
        "default" "hello" SelectionOutcome.failure =
      ({ selectedModel := getFastestModels.headI
         reasoning := rateLimitReasoning
         confidence := 1/2
         alternatives := getFastestModels.tail }, false,
       some { count := 20, resetTime := 60000 }) := by
  exact (analyzeAndRoute_rate_limited 0
    (some { count := 20, resetTime := 60000 }) [] "default" "hello"
    SelectionOutcome.failure (by decide)).1

/-- C3: the claim says a dispatch-stage rate-limit denial surfaces as HTTP
429; in fact the `'Rate limit exceeded'` error thrown by
`callSelectedModel` is caught by `routeAndRespond`'s top-level fallback,
whose own re-check is denied by the same unexpired window, so the caller
receives the terminal `'All routing attempts failed'` error, which the
handler maps to 503 — `routeAndRespond` never propagates an error other
than the terminal one, so the handler's 429 branch (which does fire on a
bare `'Rate limit exceeded'` message) is unreachable from routing
failures. -/
theorem rateLimited_dispatch_maps_to_503 :
    ((canMakeRequest 0 (some { count := 20, resetTime := 60000 })).1 =
        false) ∧
    (routeAndRespond 0 (some { count := 20, resetTime := 60000 })
        initialAnalytics [] "default" "hello" SelectionOutcome.failure
        (fun _ => BackendOutcome.success "hi" none)).1 =
      Except.error allFailedMsg ∧
    chatErrorStatus allFailedMsg = 503 ∧
    chatErrorStatus rateLimitErrorMsg = 429 ∧
    (∀ (now : Nat) (rl : Option RateLimitEntry) (a : RoutingAnalytics)
        (store : PrefStore) (userId message : String)
        (sel : SelectionOutcome) (backend : ModelConfig → BackendOutcome),
      (∃ r, (routeAndRespond now rl a store userId message sel backend).1 =
          Except.ok r) ∨
      (routeAndRespond now rl a store userId message sel backend).1 =
        Except.error allFailedMsg) := by
  refine ⟨by decide, by rfl, by decide, by decide, ?_⟩
  intro now rl a store userId message sel backend
  cases h1 : (callSelectedModel now
      (analyzeAndRoute now rl store userId message sel).2.2
      (analyzeAndRoute now rl store userId message sel).1.selectedModel
      (backend
        (analyzeAndRoute now rl store userId message sel).1.selectedModel)).1 with
  | ok r =>
    left
    refine ⟨{ content := r.content, model := r.model,
              reasoning :=
                (analyzeAndRoute now rl store userId message sel).1.reasoning,
              tokensUsed := r.tokensUsed, processingTime := 0 }, ?_⟩
    simp [routeAndRespond, h1]
  | error e =>
    cases h2 : (callSelectedModel now
        (callSelectedModel now
          (analyzeAndRoute now rl store userId message sel).2.2
          (analyzeAndRoute now rl store userId message sel).1.selectedModel
          (backend
            (analyzeAndRoute now rl store userId message sel).1.selectedModel)).2
        getFastestModels.headI (backend getFastestModels.headI)).1 with
    | ok r2 =>
      left
      refine ⟨{ content := r2.content, model := r2.model,
                reasoning := primaryFailedReasoning,
                tokensUsed := r2.tokensUsed, processingTime := 0 }, ?_⟩
      simp [routeAndRespond, h1, h2]
    | error e2 =>
      right
      simp [routeAndRespond, h1, h2]

end LLMRouter
